import Mathlib

/-!
Shallow embedding of src/interpreter.rs (a small Scheme interpreter).

The Rust code evaluates a sequence of parsed syntax nodes against a chain
of mutable environments shared through Rc<RefCell<Environment>>.  The
embedding makes that heap explicit: a Store is the list of all allocated
Environments, an environment reference is its index into the Store, and
every evaluation function threads the Store.  Recursion in the Rust code
is unbounded (host call stack), so every evaluation function takes a fuel
argument and returns none when the fuel runs out; a terminating Rust run
corresponds to any sufficiently large fuel.
-/

namespace RScheme

/-- Syntax nodes handed to the interpreter by the parser (module parser is
outside src/, but the Node variants are pinned by the match arms of
Value::from_node in src/interpreter.rs lines 50-58). -/
inductive Node where
  | NIdentifier (val : String)
  | NInteger (val : Int)
  | NBoolean (val : Bool)
  | NString (val : String)
  | NList (nodes : List Node)

/-- The native operations installed in the root environment
(src/interpreter.rs lines 254-268).  The Rust code holds them as function
pointers; the embedding enumerates them and apply_function dispatches. -/
inductive NativeOp where
  | opDefine
  | opSet
  | opLambda
  | opIf
  | opPlus
  | opMinus
  | opAnd
  | opOr
  | opList
  | opQuote
  | opQuasiquote
  | opError
deriving DecidableEq

mutual
/-- The runtime Value enum (src/interpreter.rs lines 14-22).  VInteger
holds a mathematical integer; the Rust int is fixed width, but no claim
here depends on overflow behaviour. -/
inductive Value where
  | VSymbol (name : String)
  | VInteger (n : Int)
  | VBoolean (b : Bool)
  | VString (s : String)
  | VList (items : List Value)
  | VProcedure (f : Function)

/-- Function (src/interpreter.rs lines 27-30): a native operation, or a
Scheme closure holding parameter names, a body, and the index of the
captured environment in the Store. -/
inductive Function where
  | NativeFunction (op : NativeOp)
  | SchemeFunction (argNames : List String) (body : List Value) (envId : Nat)
end

open Value Function Node NativeOp

/-- The empty list, canonical null value (macro null! in the source). -/
def vnull : Value := VList []

/-- Default value, only used to give List.headI and List.getD a default in
positions the source guards by a length check before calling unwrap. -/
instance : Inhabited Value := ⟨vnull⟩

/-- RuntimeError (src/interpreter.rs lines 107-109) carries a message. -/
structure RuntimeError where
  message : String

/-- The PartialEq impl for Function (src/interpreter.rs lines 92-96) is
fn eq(&self, other: &Function) -> bool { self == other }, whose body
invokes the very method being defined.  It is modelled with explicit
fuel: each recursion step consumes one unit and the comparison yields a
boolean only if the recursion ever bottoms out (it never does). -/
def function_eq_fuel : Nat → Function → Function → Option Bool
  | 0, _, _ => none
  | fuel+1, a, b => function_eq_fuel fuel a b

mutual
/-- The derived PartialEq for Value (deriving(PartialEq) on the enum,
src/interpreter.rs line 14): discriminants are compared first, then
fields; a VProcedure pair delegates to Function eq, hence the fuel. -/
def value_eq_fuel : Nat → Value → Value → Option Bool
  | _, VSymbol a, VSymbol b => some (a = b)
  | _, VInteger a, VInteger b => some (a = b)
  | _, VBoolean a, VBoolean b => some (a = b)
  | _, VString a, VString b => some (a = b)
  | fuel, VList a, VList b => value_list_eq_fuel fuel a b
  | fuel, VProcedure a, VProcedure b => function_eq_fuel fuel a b
  | _, _, _ => some false

/-- Elementwise comparison of Vec<Value> under derived PartialEq. -/
def value_list_eq_fuel : Nat → List Value → List Value → Option Bool
  | _, [], [] => some true
  | fuel, a :: as0, b :: bs0 =>
    match value_eq_fuel fuel a b with
    | some true => value_list_eq_fuel fuel as0 bs0
    | some false => some false
    | none => none
  | _, _, _ => some false
end

/-- An Environment (src/interpreter.rs lines 123-126): an optional parent
reference (a Store index) and a name-to-value map; the HashMap is
modelled as an association list with insert-or-replace semantics. -/
structure Environment where
  parent : Option Nat
  values : List (String × Value)

/-- The heap of all allocated environments; Rc<RefCell<Environment>>
references become indices into this list. -/
abbrev Store := List Environment

/-- HashMap::insert: replace the binding if the key exists, else add. -/
def mapInsert : List (String × Value) → String → Value → List (String × Value)
  | [], k, v => [(k, v)]
  | (k0, v0) :: rest, k, v =>
    if k0 = k then (k, v) :: rest else (k0, v0) :: mapInsert rest k v

/-- HashMap::contains_key. -/
def mapContains (m : List (String × Value)) (k : String) : Bool :=
  m.any (fun p => p.1 = k)

/-- HashMap::find (lookup). -/
def mapFind : List (String × Value) → String → Option Value
  | [], _ => none
  | (k0, v0) :: rest, k => if k0 = k then some v0 else mapFind rest k

/-- Environment::set (src/interpreter.rs lines 143-145): insert into the
local map only. -/
def Environment.set (e : Environment) (k : String) (v : Value) : Environment :=
  { e with values := mapInsert e.values k v }

/-- Environment::has (src/interpreter.rs lines 147-149): LOCAL lookup
only, the parent chain is not consulted. -/
def Environment.has (e : Environment) (k : String) : Bool :=
  mapContains e.values k

/-- Dereference an environment index; the default is never reached on
stores the interpreter builds (indices handed out are always in range). -/
def storeEnv (st : Store) (envId : Nat) : Environment :=
  st.getD envId { parent := none, values := [] }

/-- Environment::get (src/interpreter.rs lines 151-162): look in the
local map, else recurse into the parent.  The walk carries fuel because
an arbitrary Store could have a parent cycle; the interpreter only ever
creates children whose parent index is strictly smaller than their own
index, so a chain starting at envId visits at most envId + 1
environments and env_get never exhausts its fuel on reachable stores. -/
def env_lookup (st : Store) : Nat → Nat → String → Option Value
  | 0, _, _ => none
  | fuel+1, envId, k =>
    match st.get? envId with
    | none => none
    | some e =>
      match mapFind e.values k with
      | some v => some v
      | none =>
        match e.parent with
        | some p => env_lookup st fuel p k
        | none => none

/-- Environment::get entry point with the sufficient fuel bound. -/
def env_get (st : Store) (envId : Nat) (k : String) : Option Value :=
  env_lookup st (envId + 1) envId k

/-- Mutate environment envId in the heap: env.borrow_mut().set(k, v). -/
def storeSet (st : Store) (envId : Nat) (k : String) (v : Value) : Store :=
  match st.get? envId with
  | some e => st.set envId (e.set k v)
  | none => st

/-- Environment::new_child (src/interpreter.rs lines 138-141): allocate a
fresh empty environment whose parent is parentId; its index is the old
length of the Store. -/
def new_child (st : Store) (parentId : Nat) : Store :=
  st ++ [{ parent := some parentId, values := [] }]

/-- The static table of built-ins (src/interpreter.rs lines 254-268). -/
def PREDEFINED_FUNCTIONS : List (String × Function) :=
  [("define", NativeFunction opDefine),
   ("set!", NativeFunction opSet),
   ("lambda", NativeFunction opLambda),
   ("λ", NativeFunction opLambda),
   ("if", NativeFunction opIf),
   ("+", NativeFunction opPlus),
   ("-", NativeFunction opMinus),
   ("and", NativeFunction opAnd),
   ("or", NativeFunction opOr),
   ("list", NativeFunction opList),
   ("quote", NativeFunction opQuote),
   ("quasiquote", NativeFunction opQuasiquote),
   ("error", NativeFunction opError)]

/-- Environment::new_root (src/interpreter.rs lines 129-136): an empty
parentless environment populated with every predefined function. -/
def new_root : Environment :=
  PREDEFINED_FUNCTIONS.foldl
    (fun e p => e.set p.1 (VProcedure p.2))
    { parent := none, values := [] }

/-- The heap at the start of interpret: just the fresh root. -/
def initialStore : Store := [new_root]

mutual
/-- Value::to_raw_str (src/interpreter.rs lines 68-89). -/
def to_raw_str : Value → String
  | VSymbol val => val
  | VInteger val => toString val
  | VBoolean val => if val then "#t" else "#f"
  | VString val => "\"" ++ val ++ "\""
  | VList val => "(" ++ raw_join val ++ ")"
  | VProcedure _ => "#<procedure>"

/-- The space-joined rendering of list elements in to_raw_str. -/
def raw_join : List Value → String
  | [] => ""
  | [v] => to_raw_str v
  | v :: rest => to_raw_str v ++ " " ++ raw_join rest
end

/-- Value::to_str (src/interpreter.rs lines 60-66): symbols and lists get
a leading quote marker. -/
def to_str (v : Value) : String :=
  match v with
  | VSymbol _ => "\x27" ++ to_raw_str v
  | VList _ => "\x27" ++ to_raw_str v
  | _ => to_raw_str v

/-- Rendering of a &[Value] slice interpolated into error messages. -/
def args_str (args : List Value) : String :=
  "[" ++ String.intercalate (", ") (args.map to_str) ++ "]"

/-- The check *vec.get(0) == VSymbol("unquote") in quote_value: derived
PartialEq compares discriminants before fields, so against a symbol
literal it reduces to this total test (see value_eq_unquote_symbol). -/
def is_unquote_symbol : Value → Bool
  | VSymbol s => s = "unquote"
  | _ => false

mutual
/-- Value::from_node (src/interpreter.rs lines 50-58). -/
def from_node : Node → Value
  | NIdentifier val => VSymbol val
  | NInteger val => VInteger val
  | NBoolean val => VBoolean val
  | NString val => VString val
  | NList nodes => VList (from_nodes nodes)

/-- Value::from_nodes (src/interpreter.rs lines 42-48). -/
def from_nodes : List Node → List Value
  | [] => []
  | n :: rest => from_node n :: from_nodes rest
end

/-- Result of an evaluation step: none when fuel ran out, otherwise the
Ok-or-Err outcome paired with the heap as mutated so far. -/
abbrev EvalR (α : Type) := Option (Except RuntimeError α × Store)

/-- The argument-name collection loop of native_lambda
(src/interpreter.rs lines 310-322): every item must be a symbol. -/
def collect_param_names : List Value → Except RuntimeError (List String)
  | [] => .ok []
  | VSymbol s :: rest =>
    (match collect_param_names rest with
     | .ok names => .ok (s :: names)
     | .error e => .error e)
  | item :: _ =>
    .error ⟨"Unexpected argument in lambda arguments: " ++ to_str item⟩

set_option maxHeartbeats 1000000 in
mutual

/-- evaluate_values (src/interpreter.rs lines 165-171): left-to-right,
result of the last value, null for the empty sequence. -/
def evaluate_values : Nat → List Value → Nat → Store → EvalR Value
  | 0, _, _, _ => none
  | _+1, [], _, st => some (.ok vnull, st)
  | fuel+1, [v], envId, st => evaluate_value fuel v envId st
  | fuel+1, v :: rest, envId, st =>
    match evaluate_value fuel v envId st with
    | some (.ok _, st1) => evaluate_values fuel rest envId st1
    | some (.error e, st1) => some (.error e, st1)
    | none => none
  termination_by structural fuel _ _ _ => fuel

/-- evaluate_value (src/interpreter.rs lines 173-193): symbols look up
the chain, atoms and procedures self-evaluate, non-empty lists dispatch
to expression evaluation and the empty list is null. -/
def evaluate_value : Nat → Value → Nat → Store → EvalR Value
  | 0, _, _, _ => none
  | fuel+1, v, envId, st =>
    match v with
    | VSymbol name =>
      (match env_get st envId name with
       | some val => some (.ok val, st)
       | none => some (.error ⟨"Identifier not found: " ++ to_str v⟩, st))
    | VInteger n => some (.ok (VInteger n), st)
    | VBoolean b => some (.ok (VBoolean b), st)
    | VString s => some (.ok (VString s), st)
    | VList vec =>
      if vec.length > 0 then evaluate_expression fuel vec envId st
      else some (.ok vnull, st)
    | VProcedure f => some (.ok (VProcedure f), st)
  termination_by structural fuel _ _ _ => fuel

/-- quote_value (src/interpreter.rs lines 195-219): atoms and procedures
pass through; a list whose head is the unquote symbol, while quasi is
set, must have exactly one operand, which is evaluated; every other list
is quoted elementwise. -/
def quote_value : Nat → Value → Bool → Nat → Store → EvalR Value
  | 0, _, _, _, _ => none
  | fuel+1, v, quasi, envId, st =>
    match v with
    | VSymbol name => some (.ok (VSymbol name), st)
    | VInteger n => some (.ok (VInteger n), st)
    | VBoolean b => some (.ok (VBoolean b), st)
    | VString s => some (.ok (VString s), st)
    | VList vec =>
      if quasi && vec.length > 0 && is_unquote_symbol (vec.headI) then
        if vec.length ≠ 2 then
          some (.error ⟨"Must supply exactly one argument to unquote: " ++ args_str vec⟩, st)
        else
          evaluate_value fuel (vec.getD 1 vnull) envId st
      else
        match quote_list fuel vec quasi envId st with
        | some (.ok res, st1) => some (.ok (VList res), st1)
        | some (.error e, st1) => some (.error e, st1)
        | none => none
    | VProcedure f => some (.ok (VProcedure f), st)
  termination_by structural fuel _ _ _ _ => fuel

/-- The elementwise loop of quote_value over a list's items. -/
def quote_list : Nat → List Value → Bool → Nat → Store → EvalR (List Value)
  | 0, _, _, _, _ => none
  | _+1, [], _, _, st => some (.ok [], st)
  | fuel+1, v :: rest, quasi, envId, st =>
    match quote_value fuel v quasi envId st with
    | some (.ok q, st1) =>
      (match quote_list fuel rest quasi envId st1 with
       | some (.ok qs, st2) => some (.ok (q :: qs), st2)
       | some (.error e, st2) => some (.error e, st2)
       | none => none)
    | some (.error e, st1) => some (.error e, st1)
    | none => none
  termination_by structural fuel _ _ _ _ => fuel

/-- evaluate_expression (src/interpreter.rs lines 221-230): evaluate the
head; it must be a procedure, which is applied to the still-unevaluated
tail. -/
def evaluate_expression : Nat → List Value → Nat → Store → EvalR Value
  | 0, _, _, _ => none
  | fuel+1, values, envId, st =>
    match values with
    | [] => some (.error ⟨"Can\x27t evaluate an empty expression: " ++ args_str values⟩, st)
    | v0 :: rest =>
      match evaluate_value fuel v0 envId st with
      | some (.ok (VProcedure f), st1) => apply_function fuel f rest envId st1
      | some (.ok first, st1) =>
        some (.error ⟨"First element in an expression must be a procedure: " ++ to_str first⟩, st1)
      | some (.error e, st1) => some (.error e, st1)
      | none => none
  termination_by structural fuel _ _ _ => fuel

/-- apply_function (src/interpreter.rs lines 232-252): a native receives
the raw operands and the caller environment; a closure checks exact
arity, allocates a child of its captured environment, evaluates each
argument in the CALLER environment binding it in the child, then runs
its body in the child. -/
def apply_function : Nat → Function → List Value → Nat → Store → EvalR Value
  | 0, _, _, _, _ => none
  | fuel+1, NativeFunction op, args, envId, st =>
    (match op with
     | opDefine => native_define fuel args envId st
     | opSet => native_set fuel args envId st
     | opLambda => native_lambda fuel args envId st
     | opIf => native_if fuel args envId st
     | opPlus => native_plus fuel args envId st
     | opMinus => native_minus fuel args envId st
     | opAnd => native_and fuel args envId st
     | opOr => native_or fuel args envId st
     | opList => native_list fuel args envId st
     | opQuote => native_quote fuel args envId st
     | opQuasiquote => native_quasiquote fuel args envId st
     | opError => native_error fuel args envId st)
  | fuel+1, SchemeFunction argNames body funcEnv, args, envId, st =>
    if argNames.length ≠ args.length then
      some (.error ⟨"Must supply exactly " ++ toString argNames.length ++
                    " arguments to function: " ++ args_str args⟩, st)
    else
      match bind_args fuel argNames args envId st.length (new_child st funcEnv) with
      | some (.ok _, st2) => evaluate_values fuel body st.length st2
      | some (.error e, st2) => some (.error e, st2)
      | none => none
  termination_by structural fuel _ _ _ _ => fuel

/-- The zip loop of apply_function (src/interpreter.rs lines 244-247):
evaluate each argument in the caller environment envId and bind it to
the matching parameter in the child environment procId, left to right;
zip stops at the shorter list (unreachable after the arity check). -/
def bind_args : Nat → List String → List Value → Nat → Nat → Store → EvalR Unit
  | 0, _, _, _, _, _ => none
  | _+1, [], _, _, _, st => some (.ok (), st)
  | _+1, _ :: _, [], _, _, st => some (.ok (), st)
  | fuel+1, name :: names, arg :: args, envId, procId, st =>
    match evaluate_value fuel arg envId st with
    | some (.ok val, st1) => bind_args fuel names args envId procId (storeSet st1 procId name val)
    | some (.error e, st1) => some (.error e, st1)
    | none => none
  termination_by structural fuel _ _ _ _ _ => fuel

/-- native_define (src/interpreter.rs lines 270-286): exactly two
operands, the first a bare symbol; fails if the name is already bound in
the LOCAL map of the current environment, otherwise evaluates the second
operand in the current environment, binds locally and returns null. -/
def native_define : Nat → List Value → Nat → Store → EvalR Value
  | 0, _, _, _ => none
  | fuel+1, args, envId, st =>
    if args.length ≠ 2 then
      some (.error ⟨"Must supply exactly two arguments to define: " ++ args_str args⟩, st)
    else
      match args.headI with
      | VSymbol name =>
        if ¬ (storeEnv st envId).has name then
          match evaluate_value fuel (args.getD 1 vnull) envId st with
          | some (.ok val, st1) => some (.ok vnull, storeSet st1 envId name val)
          | some (.error e, st1) => some (.error e, st1)
          | none => none
        else
          some (.error ⟨"Duplicate define: " ++ name⟩, st)
      | _ => some (.error ⟨"Unexpected value for name in define: " ++ args_str args⟩, st)
  termination_by structural fuel _ _ _ => fuel

/-- native_set (src/interpreter.rs lines 288-304): exactly two operands,
the first a bare symbol; the alreadyDefined test is env.borrow().has,
which consults only the LOCAL map of the current environment, and the
rebind env.borrow_mut().set likewise writes the LOCAL map. -/
def native_set : Nat → List Value → Nat → Store → EvalR Value
  | 0, _, _, _ => none
  | fuel+1, args, envId, st =>
    if args.length ≠ 2 then
      some (.error ⟨"Must supply exactly two arguments to set!: " ++ args_str args⟩, st)
    else
      match args.headI with
      | VSymbol name =>
        if (storeEnv st envId).has name then
          match evaluate_value fuel (args.getD 1 vnull) envId st with
          | some (.ok val, st1) => some (.ok vnull, storeSet st1 envId name val)
          | some (.error e, st1) => some (.error e, st1)
          | none => none
        else
          some (.error ⟨"Can\x27t set! an undefined variable: " ++ name⟩, st)
      | _ => some (.error ⟨"Unexpected value for name in set!: " ++ args_str args⟩, st)
  termination_by structural fuel _ _ _ => fuel

/-- native_lambda (src/interpreter.rs lines 306-325): at least two
operands, the first a list of symbols; the rest form the body; the
current environment is captured by reference. -/
def native_lambda : Nat → List Value → Nat → Store → EvalR Value
  | 0, _, _, _ => none
  | _+1, args, envId, st =>
    if args.length < 2 then
      some (.error ⟨"Must supply at least two arguments to lambda: " ++ args_str args⟩, st)
    else
      match args.headI with
      | VList list =>
        (match collect_param_names list with
         | .ok names => some (.ok (VProcedure (SchemeFunction names args.tail envId)), st)
         | .error e => some (.error e, st))
      | _ => some (.error ⟨"Unexpected value for arguments in lambda: " ++ args_str args⟩, st)

/-- native_if (src/interpreter.rs lines 327-336): exactly three
operands; the condition is evaluated and only VBoolean false selects the
third operand, every other value selects the second. -/
def native_if : Nat → List Value → Nat → Store → EvalR Value
  | 0, _, _, _ => none
  | fuel+1, args, envId, st =>
    if args.length ≠ 3 then
      some (.error ⟨"Must supply exactly three arguments to if: " ++ args_str args⟩, st)
    else
      match evaluate_value fuel (args.headI) envId st with
      | some (.ok condition, st1) =>
        (match condition with
         | VBoolean false => evaluate_value fuel (args.getD 2 vnull) envId st1
         | _ => evaluate_value fuel (args.getD 1 vnull) envId st1)
      | some (.error e, st1) => some (.error e, st1)
      | none => none
  termination_by structural fuel _ _ _ => fuel

/-- native_plus (src/interpreter.rs lines 338-351): at least two
operands, each evaluated and summed; a non-integer fails. -/
def native_plus : Nat → List Value → Nat → Store → EvalR Value
  | 0, _, _, _ => none
  | fuel+1, args, envId, st =>
    if args.length < 2 then
      some (.error ⟨"Must supply at least two arguments to +: " ++ args_str args⟩, st)
    else
      plus_loop fuel args 0 envId st
  termination_by structural fuel _ _ _ => fuel

/-- The accumulation loop of native_plus. -/
def plus_loop : Nat → List Value → Int → Nat → Store → EvalR Value
  | 0, _, _, _, _ => none
  | _+1, [], sum, _, st => some (.ok (VInteger sum), st)
  | fuel+1, n :: rest, sum, envId, st =>
    match evaluate_value fuel n envId st with
    | some (.ok (VInteger x), st1) => plus_loop fuel rest (sum + x) envId st1
    | some (.ok _, st1) =>
      some (.error ⟨"Unexpected value during +: " ++ to_str n⟩, st1)
    | some (.error e, st1) => some (.error e, st1)
    | none => none
  termination_by structural fuel _ _ _ _ => fuel

/-- native_minus (src/interpreter.rs lines 353-368): exactly two
operands, both evaluated, both must be integers. -/
def native_minus : Nat → List Value → Nat → Store → EvalR Value
  | 0, _, _, _ => none
  | fuel+1, args, envId, st =>
    if args.length ≠ 2 then
      some (.error ⟨"Must supply exactly two arguments to -: " ++ args_str args⟩, st)
    else
      match evaluate_value fuel (args.headI) envId st with
      | some (.ok l, st1) =>
        (match evaluate_value fuel (args.getD 1 vnull) envId st1 with
         | some (.ok r, st2) =>
           (match l with
            | VInteger x =>
              (match r with
               | VInteger y => some (.ok (VInteger (x - y)), st2)
               | _ => some (.error ⟨"Unexpected value during -: " ++ args_str args⟩, st2))
            | _ => some (.error ⟨"Unexpected value during -: " ++ args_str args⟩, st2))
         | some (.error e, st2) => some (.error e, st2)
         | none => none)
      | some (.error e, st1) => some (.error e, st1)
      | none => none
  termination_by structural fuel _ _ _ => fuel

/-- native_and (src/interpreter.rs lines 370-380): res starts at true
and the loop runs over the operands. -/
def native_and : Nat → List Value → Nat → Store → EvalR Value
  | 0, _, _, _ => none
  | fuel+1, args, envId, st => and_loop fuel args (VBoolean true) envId st
  termination_by structural fuel _ _ _ => fuel

/-- The loop of native_and: evaluate left to right, return false at the
first VBoolean false, else remember the value; the last one is returned
when the operands are exhausted. -/
def and_loop : Nat → List Value → Value → Nat → Store → EvalR Value
  | 0, _, _, _, _ => none
  | _+1, [], res, _, st => some (.ok res, st)
  | fuel+1, n :: rest, _, envId, st =>
    match evaluate_value fuel n envId st with
    | some (.ok (VBoolean false), st1) => some (.ok (VBoolean false), st1)
    | some (.ok v, st1) => and_loop fuel rest v envId st1
    | some (.error e, st1) => some (.error e, st1)
    | none => none
  termination_by structural fuel _ _ _ _ => fuel

/-- native_or (src/interpreter.rs lines 382-391). -/
def native_or : Nat → List Value → Nat → Store → EvalR Value
  | 0, _, _, _ => none
  | fuel+1, args, envId, st => or_loop fuel args envId st
  termination_by structural fuel _ _ _ => fuel

/-- The loop of native_or: evaluate left to right, skip VBoolean false,
return the first other value; false when the operands are exhausted. -/
def or_loop : Nat → List Value → Nat → Store → EvalR Value
  | 0, _, _, _ => none
  | _+1, [], _, st => some (.ok (VBoolean false), st)
  | fuel+1, n :: rest, envId, st =>
    match evaluate_value fuel n envId st with
    | some (.ok (VBoolean false), st1) => or_loop fuel rest envId st1
    | some (.ok v, st1) => some (.ok v, st1)
    | some (.error e, st1) => some (.error e, st1)
    | none => none
  termination_by structural fuel _ _ _ => fuel

/-- native_list (src/interpreter.rs lines 393-400): every operand is
evaluated and the results are collected in order. -/
def native_list : Nat → List Value → Nat → Store → EvalR Value
  | 0, _, _, _ => none
  | fuel+1, args, envId, st =>
    match list_loop fuel args envId st with
    | some (.ok elements, st1) => some (.ok (VList elements), st1)
    | some (.error e, st1) => some (.error e, st1)
    | none => none
  termination_by structural fuel _ _ _ => fuel

/-- The collection loop of native_list. -/
def list_loop : Nat → List Value → Nat → Store → EvalR (List Value)
  | 0, _, _, _ => none
  | _+1, [], _, st => some (.ok [], st)
  | fuel+1, n :: rest, envId, st =>
    match evaluate_value fuel n envId st with
    | some (.ok v, st1) =>
      (match list_loop fuel rest envId st1 with
       | some (.ok vs, st2) => some (.ok (v :: vs), st2)
       | some (.error e, st2) => some (.error e, st2)
       | none => none)
    | some (.error e, st1) => some (.error e, st1)
    | none => none
  termination_by structural fuel _ _ _ => fuel

/-- native_quote (src/interpreter.rs lines 402-407): exactly one
operand, quoted with quasi = false. -/
def native_quote : Nat → List Value → Nat → Store → EvalR Value
  | 0, _, _, _ => none
  | fuel+1, args, envId, st =>
    if args.length ≠ 1 then
      some (.error ⟨"Must supply exactly one argument to quote: " ++ args_str args⟩, st)
    else
      quote_value fuel (args.headI) false envId st
  termination_by structural fuel _ _ _ => fuel

/-- native_quasiquote (src/interpreter.rs lines 409-414): exactly one
operand, quoted with quasi = true. -/
def native_quasiquote : Nat → List Value → Nat → Store → EvalR Value
  | 0, _, _, _ => none
  | fuel+1, args, envId, st =>
    if args.length ≠ 1 then
      some (.error ⟨"Must supply exactly one argument to quasiquote: " ++ args_str args⟩, st)
    else
      quote_value fuel (args.headI) true envId st
  termination_by structural fuel _ _ _ => fuel

/-- native_error (src/interpreter.rs lines 416-422): exactly one
operand, evaluated; its rendering becomes the error message. -/
def native_error : Nat → List Value → Nat → Store → EvalR Value
  | 0, _, _, _ => none
  | fuel+1, args, envId, st =>
    if args.length ≠ 1 then
      some (.error ⟨"Must supply exactly one arguments to error: " ++ args_str args⟩, st)
    else
      match evaluate_value fuel (args.headI) envId st with
      | some (.ok e, st1) => some (.error ⟨to_str e⟩, st1)
      | some (.error e, st1) => some (.error e, st1)
      | none => none
  termination_by structural fuel _ _ _ => fuel

end

/-- interpret (src/interpreter.rs lines 8-12): build a fresh root
environment, translate the nodes once and evaluate them as a sequence;
the final heap is dropped, only the value or error is returned. -/
def interpret (fuel : Nat) (nodes : List Node) : Option (Except RuntimeError Value) :=
  (evaluate_values fuel (from_nodes nodes) 0 initialStore).map Prod.fst

/-- Several separate top-level interpretation calls in one process: each
one is interpret on its own node sequence (the source has no global
mutable state; PREDEFINED_FUNCTIONS is an immutable static table and the
root environment is rebuilt inside every interpret call). -/
def interpret_session (fuel : Nat) (programs : List (List Node)) :
    List (Option (Except RuntimeError Value)) :=
  programs.map (interpret fuel)

mutual
/-- Structural depth of a Value, the fuel a quote walk needs. -/
def vdepth : Value → Nat
  | VList items => 1 + ldepth items
  | _ => 1

/-- Structural depth of a list of Values. -/
def ldepth : List Value → Nat
  | [] => 1
  | v :: rest => 1 + vdepth v + ldepth rest
end

/-- Claim C1 (as amended): set! consults only the current environment's
own local map; when the name is bound there it evaluates the expression,
rebinds the name in that local scope and returns the empty list, and it
fails whenever the name is not locally bound, even if an ancestor scope
binds it. -/
theorem c1_set_local_only (fuel envId : Nat) (st : Store) (name : String) (expr : Value) :
    ((storeEnv st envId).has name = false →
      native_set (fuel+1) [VSymbol name, expr] envId st =
        some (.error ⟨"Can\x27t set! an undefined variable: " ++ name⟩, st)) ∧
    ((storeEnv st envId).has name = true →
      ∀ v st1, evaluate_value fuel expr envId st = some (.ok v, st1) →
        native_set (fuel+1) [VSymbol name, expr] envId st =
          some (.ok vnull, storeSet st1 envId name v)) := by
  constructor
  · intro h
    simp [native_set, h]
  · intro h v st1 hv
    simp [native_set, h, hv]

/-- Witness for c1_set_local_only at concrete one-environment stores:
an unbound name fails, a locally bound name is rebound. -/
theorem c1_set_local_only_witness :
    native_set 3 [VSymbol "x", VInteger 2] 0 [⟨none, [("y", VInteger 1)]⟩] =
      some (.error ⟨"Can\x27t set! an undefined variable: x"⟩, [⟨none, [("y", VInteger 1)]⟩]) ∧
    native_set 3 [VSymbol "y", VInteger 7] 0 [⟨none, [("y", VInteger 1)]⟩] =
      some (.ok vnull, [⟨none, [("y", VInteger 7)]⟩]) := by
  constructor
  · exact (c1_set_local_only 2 0 _ "x" (VInteger 2)).1 (by decide)
  · have h := (c1_set_local_only 2 0 [⟨none, [("y", VInteger 1)]⟩] "y" (VInteger 7)).2 (by decide)
      (VInteger 7) [⟨none, [("y", VInteger 1)]⟩] rfl
    exact h.trans (by rfl)

/-- Claim C1 counterexample: x is bound in the root, which is an
ancestor of the closure scope, and env_get finds it from the child, yet
set! fails instead of rebinding it; the full program
(define x 1) (define f (lambda () (set! x 2))) (f) hits the same error,
refuting the walk-up-the-chain behaviour the claim states. -/
theorem c1_counterexample :
    (env_get [⟨none, [("x", VInteger 1)]⟩, ⟨some 0, []⟩] 1 "x" = some (VInteger 1) ∧
     native_set 5 [VSymbol "x", VInteger 2] 1 [⟨none, [("x", VInteger 1)]⟩, ⟨some 0, []⟩] =
       some (.error ⟨"Can\x27t set! an undefined variable: x"⟩,
             [⟨none, [("x", VInteger 1)]⟩, ⟨some 0, []⟩])) ∧
    interpret 20 [NList [NIdentifier "define", NIdentifier "x", NInteger 1],
      NList [NIdentifier "define", NIdentifier "f",
        NList [NIdentifier "lambda", NList [],
          NList [NIdentifier "set!", NIdentifier "x", NInteger 2]]],
      NList [NIdentifier "f"]] =
      some (.error ⟨"Can\x27t set! an undefined variable: x"⟩) := by
  exact ⟨⟨rfl, rfl⟩, rfl⟩

/-- Claim C2 (code bug): the PartialEq impl for Function calls itself
unconditionally, so comparing two procedure values never produces a
boolean at any recursion depth, neither for Function pairs nor for
VProcedure Value pairs; the claimed terminating identity-like comparison
does not exist in the code. -/
theorem c2_procedure_eq_never_returns (fuel : Nat) :
    (∀ a b : Function, function_eq_fuel fuel a b = none) ∧
    (∀ f g : Function, value_eq_fuel fuel (VProcedure f) (VProcedure g) = none) := by
  have h : ∀ n (a b : Function), function_eq_fuel n a b = none := by
    intro n
    induction n with
    | zero => intro a b; rfl
    | succ n ih => intro a b; simpa [function_eq_fuel] using ih a b
  exact ⟨h fuel, fun f g => by simpa [value_eq_fuel] using h fuel f g⟩

/-- Faithfulness of is_unquote_symbol: derived PartialEq on Value
compares a value against the symbol unquote without ever reaching the
divergent Function comparison, and agrees with is_unquote_symbol. -/
theorem value_eq_unquote_symbol (fuel : Nat) (v : Value) :
    value_eq_fuel fuel v (VSymbol "unquote") = some (is_unquote_symbol v) := by
  cases v <;> simp [value_eq_fuel, is_unquote_symbol]

/-- Claim C3: a non-empty list expression evaluates its head; a
non-procedure head fails, a procedure head is applied to the unevaluated
tail; a closure checks exact arity before evaluating anything, then
binds each argument, evaluated in the caller's environment, to the
matching parameter of a fresh child of the captured environment, and
runs the body there as a sequence.  Concrete runs: (double 8) is 16, a
one-parameter closure on two arguments fails, (1 2) fails, and the
caller-environment demo returns 5 rather than the captured 10. -/
theorem c3_application (fuel envId : Nat) (st : Store) (v0 : Value) (rest : List Value) :
    (∀ v st1, evaluate_value fuel v0 envId st = some (.ok v, st1) →
       (∀ f, v = VProcedure f →
          evaluate_expression (fuel+1) (v0 :: rest) envId st = apply_function fuel f rest envId st1) ∧
       ((∀ f, v ≠ VProcedure f) →
          evaluate_expression (fuel+1) (v0 :: rest) envId st =
            some (.error ⟨"First element in an expression must be a procedure: " ++ to_str v⟩, st1))) ∧
    (∀ argNames body funcEnv,
       (argNames.length ≠ rest.length →
         apply_function (fuel+1) (SchemeFunction argNames body funcEnv) rest envId st =
           some (.error ⟨"Must supply exactly " ++ toString argNames.length ++
                         " arguments to function: " ++ args_str rest⟩, st)) ∧
       (argNames.length = rest.length →
         apply_function (fuel+1) (SchemeFunction argNames body funcEnv) rest envId st =
           (match bind_args fuel argNames rest envId st.length (new_child st funcEnv) with
            | some (.ok _, st2) => evaluate_values fuel body st.length st2
            | some (.error e, st2) => some (.error e, st2)
            | none => none))) ∧
    (∀ name names arg args1 procId,
       bind_args (fuel+1) (name :: names) (arg :: args1) envId procId st =
         (match evaluate_value fuel arg envId st with
          | some (.ok val, st1) => bind_args fuel names args1 envId procId (storeSet st1 procId name val)
          | some (.error e, st1) => some (.error e, st1)
          | none => none)) ∧
    interpret 30 [NList [NIdentifier "define", NIdentifier "double",
        NList [NIdentifier "lambda", NList [NIdentifier "x"],
          NList [NIdentifier "+", NIdentifier "x", NIdentifier "x"]]],
      NList [NIdentifier "double", NInteger 8]] = some (.ok (VInteger 16)) ∧
    interpret 30 [NList [NList [NIdentifier "lambda", NList [NIdentifier "x"], NIdentifier "x"],
      NInteger 1, NInteger 2]] =
      some (.error ⟨"Must supply exactly 1 arguments to function: [1, 2]"⟩) ∧
    interpret 30 [NList [NInteger 1, NInteger 2]] =
      some (.error ⟨"First element in an expression must be a procedure: 1"⟩) ∧
    interpret 40 [NList [NIdentifier "define", NIdentifier "y", NInteger 5],
      NList [NIdentifier "define", NIdentifier "mk",
        NList [NIdentifier "lambda", NList [NIdentifier "y"],
          NList [NIdentifier "lambda", NList [NIdentifier "z"], NIdentifier "z"]]],
      NList [NIdentifier "define", NIdentifier "h", NList [NIdentifier "mk", NInteger 10]],
      NList [NIdentifier "h", NIdentifier "y"]] = some (.ok (VInteger 5)) := by
  refine ⟨?_, ?_, ?_, by rfl, by rfl, by rfl, by rfl⟩
  · intro v st1 hv
    constructor
    · rintro f rfl
      simp [evaluate_expression, hv]
    · intro hnp
      rcases v with a | a | a | a | a | f
      · simp [evaluate_expression, hv]
      · simp [evaluate_expression, hv]
      · simp [evaluate_expression, hv]
      · simp [evaluate_expression, hv]
      · simp [evaluate_expression, hv]
      · exact absurd rfl (hnp f)
  · intro argNames body funcEnv
    constructor
    · intro h
      simp [apply_function, h]
    · intro h
      simp [apply_function, h]
  · intro name names arg args1 procId
    simp [bind_args]
/-- Witness for c3_application: procedure-head dispatch at the built-in
list procedure, and the closure arity failure on zero arguments. -/
theorem c3_application_witness :
    evaluate_expression 4 [VSymbol "list"] 0 initialStore =
      apply_function 3 (NativeFunction opList) [] 0 initialStore ∧
    apply_function 1 (SchemeFunction ["a"] [VSymbol "a"] 0) [] 0 initialStore =
      some (.error ⟨"Must supply exactly 1 arguments to function: []"⟩, initialStore) := by
  constructor
  · exact ((c3_application 3 0 initialStore (VSymbol "list") []).1
      (VProcedure (NativeFunction opList)) initialStore rfl).1 (NativeFunction opList) rfl
  · exact ((c3_application 0 0 initialStore (VSymbol "list") []).2.1 ["a"] [VSymbol "a"] 0).1
      (by decide)

/-- Claim C4: define demands exactly two operands with a bare symbol
first; a locally bound name yields the duplicate-define error with the
store unchanged for every second operand (hence unevaluated); otherwise
the second operand is evaluated in the current environment, bound
locally and the empty list returned; (define x 1)(define x 2) fails. -/
theorem c4_define_semantics (fuel envId : Nat) (st : Store) (name : String) (expr : Value) :
    (∀ args : List Value, args.length ≠ 2 →
       native_define (fuel+1) args envId st =
         some (.error ⟨"Must supply exactly two arguments to define: " ++ args_str args⟩, st)) ∧
    (∀ v0 e0, (∀ s, v0 ≠ VSymbol s) →
       native_define (fuel+1) [v0, e0] envId st =
         some (.error ⟨"Unexpected value for name in define: " ++ args_str [v0, e0]⟩, st)) ∧
    ((storeEnv st envId).has name = true →
       native_define (fuel+1) [VSymbol name, expr] envId st =
         some (.error ⟨"Duplicate define: " ++ name⟩, st)) ∧
    ((storeEnv st envId).has name = false →
       ∀ v st1, evaluate_value fuel expr envId st = some (.ok v, st1) →
         native_define (fuel+1) [VSymbol name, expr] envId st =
           some (.ok vnull, storeSet st1 envId name v)) ∧
    interpret 10 [NList [NIdentifier "define", NIdentifier "x", NInteger 1],
      NList [NIdentifier "define", NIdentifier "x", NInteger 2]] =
      some (.error ⟨"Duplicate define: x"⟩) := by
  refine ⟨?_, ?_, ?_, ?_, by rfl⟩
  · intro args h
    simp [native_define, h]
  · intro v0 e0 h
    rcases v0 with a | a | a | a | a | f
    · exact absurd rfl (h a)
    all_goals simp [native_define]
  · intro h
    simp [native_define, h]
  · intro h v st1 hv
    simp [native_define, h, hv]

/-- Witness for c4_define_semantics: a fresh name is bound locally, a
locally bound name triggers the duplicate-define error. -/
theorem c4_define_semantics_witness :
    native_define 3 [VSymbol "z", VInteger 4] 0 [⟨none, []⟩] =
      some (.ok vnull, [⟨none, [("z", VInteger 4)]⟩]) ∧
    native_define 3 [VSymbol "z", VInteger 4] 0 [⟨none, [("z", VInteger 1)]⟩] =
      some (.error ⟨"Duplicate define: z"⟩, [⟨none, [("z", VInteger 1)]⟩]) := by
  constructor
  · have h := ((c4_define_semantics 2 0 [⟨none, []⟩] "z" (VInteger 4)).2.2.2.1 (by decide))
      (VInteger 4) [⟨none, []⟩] rfl
    exact h.trans (by rfl)
  · exact (c4_define_semantics 2 0 [⟨none, [("z", VInteger 1)]⟩] "z" (VInteger 4)).2.2.1 (by decide)

/-- Totality and literalness of plain quoting: with fuel at least the
structural depth, quote_value with quasi false returns its operand
unchanged and leaves the store untouched, so no evaluation occurs. -/
theorem quote_value_literal (fuel : Nat) :
    (∀ v envId st, vdepth v ≤ fuel → quote_value fuel v false envId st = some (.ok v, st)) ∧
    (∀ items envId st, ldepth items ≤ fuel →
       quote_list fuel items false envId st = some (.ok items, st)) := by
  induction fuel with
  | zero =>
    constructor
    · intro v envId st h
      rcases v with a | a | a | a | a | f <;> simp [vdepth] at h
    · intro items envId st h
      rcases items with _ | ⟨v, rest⟩ <;> simp [ldepth] at h
  | succ fuel ih =>
    constructor
    · intro v envId st h
      rcases v with a | a | a | a | items | f
      · simp [quote_value]
      · simp [quote_value]
      · simp [quote_value]
      · simp [quote_value]
      · have h2 : ldepth items ≤ fuel := by
          simp [vdepth] at h
          omega
        simp [quote_value, ih.2 items envId st h2]
      · simp [quote_value]
    · intro items envId st h
      rcases items with _ | ⟨v, rest⟩
      · simp [quote_list]
      · have h1 : vdepth v ≤ fuel := by
          simp [ldepth] at h
          omega
        have h2 : ldepth rest ≤ fuel := by
          simp [ldepth] at h
          omega
        simp [quote_list, ih.1 v envId st h1, ih.2 rest envId st h2]

/-- Claim C5: native_quote returns its single operand fully literal
(including nested unquote forms), while under quasiquote a list whose
head is the unquote symbol must carry exactly one operand, which is
evaluated in the current environment in place of the whole form; the
spec's two examples compute accordingly. -/
theorem c5_quote_vs_quasiquote (fuel envId : Nat) (st : Store) :
    (∀ v, vdepth v ≤ fuel → native_quote (fuel+1) [v] envId st = some (.ok v, st)) ∧
    (∀ arg, quote_value (fuel+1) (VList [VSymbol "unquote", arg]) true envId st =
       evaluate_value fuel arg envId st) ∧
    (∀ v0 vrest, is_unquote_symbol v0 = true → (v0 :: vrest).length ≠ 2 →
       quote_value (fuel+1) (VList (v0 :: vrest)) true envId st =
         some (.error ⟨"Must supply exactly one argument to unquote: " ++
                       args_str (v0 :: vrest)⟩, st)) ∧
    interpret 30 [NList [NIdentifier "quote",
        NList [NIdentifier "a", NList [NIdentifier "unquote", NIdentifier "b"]]]] =
      some (.ok (VList [VSymbol "a", VList [VSymbol "unquote", VSymbol "b"]])) ∧
    interpret 30 [NList [NIdentifier "define", NIdentifier "b", NInteger 5],
      NList [NIdentifier "quasiquote",
        NList [NIdentifier "a", NList [NIdentifier "unquote", NIdentifier "b"]]]] =
      some (.ok (VList [VSymbol "a", VInteger 5])) := by
  refine ⟨?_, ?_, ?_, by rfl, by rfl⟩
  · intro v hv
    simp [native_quote, (quote_value_literal fuel).1 v envId st hv]
  · intro arg
    simp [quote_value, is_unquote_symbol]
  · intro v0 vrest h1 h2
    have h3 : vrest.length ≠ 1 := by simpa using h2
    simp [quote_value, h1, h3]

/-- Witness for c5_quote_vs_quasiquote: a literal quote of (a) and the
malformed unquote arity error on (unquote). -/
theorem c5_quote_vs_quasiquote_witness :
    native_quote 6 [VList [VSymbol "a"]] 0 initialStore =
      some (.ok (VList [VSymbol "a"]), initialStore) ∧
    quote_value 3 (VList [VSymbol "unquote"]) true 0 initialStore =
      some (.error ⟨"Must supply exactly one argument to unquote: [\x27unquote]"⟩,
            initialStore) := by
  constructor
  · exact (c5_quote_vs_quasiquote 5 0 initialStore).1 (VList [VSymbol "a"]) (by decide)
  · have h := (c5_quote_vs_quasiquote 2 0 initialStore).2.2.1 (VSymbol "unquote") [] (by decide)
      (by decide)
    exact h.trans (by rfl)
/-- Claim C6: if takes exactly three operands and evaluates operand 0
first; exactly Boolean false selects operand 2 with operand 1
universally quantified (never evaluated), any other value selects
operand 1 with operand 2 universally quantified; 0 and the empty list
are truthy, and a two-operand if fails. -/
theorem c6_if (fuel envId : Nat) (st : Store) (c t e : Value) :
    (∀ st1, evaluate_value fuel c envId st = some (.ok (VBoolean false), st1) →
       ∀ t0, native_if (fuel+1) [c, t0, e] envId st = evaluate_value fuel e envId st1) ∧
    (∀ v st1, evaluate_value fuel c envId st = some (.ok v, st1) → v ≠ VBoolean false →
       ∀ e0, native_if (fuel+1) [c, t, e0] envId st = evaluate_value fuel t envId st1) ∧
    (∀ args : List Value, args.length ≠ 3 →
       native_if (fuel+1) args envId st =
         some (.error ⟨"Must supply exactly three arguments to if: " ++ args_str args⟩, st)) ∧
    interpret 10 [NList [NIdentifier "if", NBoolean false,
      NList [NIdentifier "error", NString "boom"], NInteger 2]] = some (.ok (VInteger 2)) ∧
    interpret 10 [NList [NIdentifier "if", NInteger 0, NInteger 1,
      NList [NIdentifier "error", NString "boom"]]] = some (.ok (VInteger 1)) ∧
    interpret 10 [NList [NIdentifier "if", NList [], NInteger 1,
      NList [NIdentifier "error", NString "boom"]]] = some (.ok (VInteger 1)) ∧
    interpret 10 [NList [NIdentifier "if", NInteger 1, NInteger 2]] =
      some (.error ⟨"Must supply exactly three arguments to if: [1, 2]"⟩) := by
  refine ⟨?_, ?_, ?_, by rfl, by rfl, by rfl, by rfl⟩
  · intro st1 hc t0
    simp [native_if, hc]
  · intro v st1 hc hne e0
    rcases v with a | a | a | a | a | f
    · simp [native_if, hc]
    · simp [native_if, hc]
    · cases a
      · exact absurd rfl hne
      · simp [native_if, hc]
    · simp [native_if, hc]
    · simp [native_if, hc]
    · simp [native_if, hc]
  · intro args h
    simp [native_if, h]

/-- Witness for c6_if: both branches at concrete conditions plus the
arity error on a single operand. -/
theorem c6_if_witness :
    native_if 2 [VBoolean false, VString "skip", VInteger 3] 0 initialStore =
      some (.ok (VInteger 3), initialStore) ∧
    native_if 2 [VInteger 0, VInteger 4, VString "skip"] 0 initialStore =
      some (.ok (VInteger 4), initialStore) ∧
    native_if 2 [VInteger 1] 0 initialStore =
      some (.error ⟨"Must supply exactly three arguments to if: [1]"⟩, initialStore) := by
  refine ⟨?_, ?_, ?_⟩
  · have h := (c6_if 1 0 initialStore (VBoolean false) (VString "skip") (VInteger 3)).1
      initialStore rfl (VString "skip")
    exact h.trans (by rfl)
  · have h := (c6_if 1 0 initialStore (VInteger 0) (VInteger 4) (VString "skip")).2.1
      (VInteger 0) initialStore rfl (by simp) (VString "skip")
    exact h.trans (by rfl)
  · exact (c6_if 1 0 initialStore (VInteger 1) vnull vnull).2.2.1 [VInteger 1] (by decide)

/-- Claim C7: the and loop starts from true, evaluates operands left to
right, stops at the first Boolean false with the remaining operands
universally quantified (never evaluated) and otherwise carries the last
value; the or loop returns the first non-false value likewise and false
when exhausted; the error-operand programs complete without raising. -/
theorem c7_and_or (fuel envId : Nat) (st : Store) :
    (∀ args, native_and (fuel+1) args envId st = and_loop fuel args (VBoolean true) envId st) ∧
    (∀ res, and_loop (fuel+1) [] res envId st = some (.ok res, st)) ∧
    (∀ a rest res st1, evaluate_value fuel a envId st = some (.ok (VBoolean false), st1) →
       and_loop (fuel+1) (a :: rest) res envId st = some (.ok (VBoolean false), st1)) ∧
    (∀ a rest res v st1, evaluate_value fuel a envId st = some (.ok v, st1) →
       v ≠ VBoolean false →
       and_loop (fuel+1) (a :: rest) res envId st = and_loop fuel rest v envId st1) ∧
    (∀ args, native_or (fuel+1) args envId st = or_loop fuel args envId st) ∧
    (or_loop (fuel+1) [] envId st = some (.ok (VBoolean false), st)) ∧
    (∀ a rest st1, evaluate_value fuel a envId st = some (.ok (VBoolean false), st1) →
       or_loop (fuel+1) (a :: rest) envId st = or_loop fuel rest envId st1) ∧
    (∀ a rest v st1, evaluate_value fuel a envId st = some (.ok v, st1) → v ≠ VBoolean false →
       or_loop (fuel+1) (a :: rest) envId st = some (.ok v, st1)) ∧
    interpret 10 [NList [NIdentifier "and", NBoolean false,
      NList [NIdentifier "error", NString "boom"]]] = some (.ok (VBoolean false)) ∧
    interpret 10 [NList [NIdentifier "and"]] = some (.ok (VBoolean true)) ∧
    interpret 10 [NList [NIdentifier "and", NInteger 1, NInteger 2]] =
      some (.ok (VInteger 2)) ∧
    interpret 10 [NList [NIdentifier "or", NInteger 1,
      NList [NIdentifier "error", NString "boom"]]] = some (.ok (VInteger 1)) ∧
    interpret 10 [NList [NIdentifier "or"]] = some (.ok (VBoolean false)) ∧
    interpret 10 [NList [NIdentifier "or", NBoolean false, NBoolean false]] =
      some (.ok (VBoolean false)) := by
  refine ⟨?_, ?_, ?_, ?_, ?_, ?_, ?_, ?_, by rfl, by rfl, by rfl, by rfl, by rfl, by rfl⟩
  · intro args
    simp [native_and]
  · intro res
    simp [and_loop]
  · intro a rest res st1 ha
    simp [and_loop, ha]
  · intro a rest res v st1 ha hne
    rcases v with x | x | x | x | x | f
    · simp [and_loop, ha]
    · simp [and_loop, ha]
    · cases x
      · exact absurd rfl hne
      · simp [and_loop, ha]
    · simp [and_loop, ha]
    · simp [and_loop, ha]
    · simp [and_loop, ha]
  · intro args
    simp [native_or]
  · simp [or_loop]
  · intro a rest st1 ha
    simp [or_loop, ha]
  · intro a rest v st1 ha hne
    rcases v with x | x | x | x | x | f
    · simp [or_loop, ha]
    · simp [or_loop, ha]
    · cases x
      · exact absurd rfl hne
      · simp [or_loop, ha]
    · simp [or_loop, ha]
    · simp [or_loop, ha]
    · simp [or_loop, ha]

/-- Witness for c7_and_or: short-circuit of and on a false head and of
or on a truthy head, each with an unevaluated tail. -/
theorem c7_and_or_witness :
    and_loop 2 [VBoolean false, VString "never"] (VBoolean true) 0 initialStore =
      some (.ok (VBoolean false), initialStore) ∧
    or_loop 2 [VInteger 9, VString "never"] 0 initialStore =
      some (.ok (VInteger 9), initialStore) := by
  constructor
  · exact (c7_and_or 1 0 initialStore).2.2.1 (VBoolean false) [VString "never"]
      (VBoolean true) initialStore rfl
  · exact (c7_and_or 1 0 initialStore).2.2.2.2.2.2.2.1 (VInteger 9) [VString "never"]
      (VInteger 9) initialStore rfl (by simp)
/-- Claim C8: a sequence evaluates strictly left to right, discards
every result but the last (the discarded result is universally
quantified), propagates the first error, returns the empty list for the
empty sequence, and the expression () evaluates to the empty list. -/
theorem c8_sequence (fuel envId : Nat) (st : Store) :
    (evaluate_values (fuel+1) [] envId st = some (.ok vnull, st)) ∧
    (∀ v, evaluate_values (fuel+1) [v] envId st = evaluate_value fuel v envId st) ∧
    (∀ v r rest st1, rest ≠ [] → evaluate_value fuel v envId st = some (.ok r, st1) →
       evaluate_values (fuel+1) (v :: rest) envId st = evaluate_values fuel rest envId st1) ∧
    (∀ v e rest st1, rest ≠ [] → evaluate_value fuel v envId st = some (.error e, st1) →
       evaluate_values (fuel+1) (v :: rest) envId st = some (.error e, st1)) ∧
    (evaluate_value (fuel+1) (VList []) envId st = some (.ok vnull, st)) ∧
    interpret 10 [NList []] = some (.ok vnull) ∧
    interpret 10 [NInteger 7, NInteger 8] = some (.ok (VInteger 8)) := by
  refine ⟨by simp [evaluate_values], ?_, ?_, ?_, by simp [evaluate_value], by rfl, by rfl⟩
  · intro v
    simp [evaluate_values]
  · intro v r rest st1 hne hv
    rcases rest with _ | ⟨r0, rs⟩
    · exact absurd rfl hne
    · simp [evaluate_values, hv]
  · intro v e rest st1 hne hv
    rcases rest with _ | ⟨r0, rs⟩
    · exact absurd rfl hne
    · simp [evaluate_values, hv]

/-- Witness for c8_sequence: the head result of a two-element sequence
is discarded and evaluation continues with the tail. -/
theorem c8_sequence_witness :
    evaluate_values 2 [VInteger 1, VInteger 2] 0 initialStore =
      evaluate_values 1 [VInteger 2] 0 initialStore := by
  exact (c8_sequence 1 0 initialStore).2.2.1 (VInteger 1) (VInteger 1) [VInteger 2]
    initialStore (by simp) rfl

/-- Claim C9: interpret is deterministic and stateless across calls:
two runs on the same nodes agree, a session of two top-level calls
equals the two independent runs, and every run starts from the same
constant initial store built from the static built-in table. -/
theorem c9_interpret_deterministic (fuel : Nat) (nodes prior : List Node) :
    interpret fuel nodes = interpret fuel nodes ∧
    interpret_session fuel [prior, nodes] = [interpret fuel prior, interpret fuel nodes] ∧
    interpret fuel nodes = (evaluate_values fuel (from_nodes nodes) 0 initialStore).map Prod.fst :=
  ⟨rfl, rfl, rfl⟩

/-- Claim C10: every built-in name is bound in the root environment's
own local map, so a top-level define of that name hits the
duplicate-define branch for every second operand, while the same define
in a child scope succeeds and lookup from the child then sees the new
binding (shadowing the built-in); a closure body defining if returns
the shadowed value 42. -/
theorem c10_builtins_local_in_root (fuel : Nat) (name : String)
    (h : name ∈ PREDEFINED_FUNCTIONS.map Prod.fst) :
    new_root.has name = true ∧
    (∀ expr, native_define (fuel+1) [VSymbol name, expr] 0 initialStore =
       some (.error ⟨"Duplicate define: " ++ name⟩, initialStore)) ∧
    native_define (fuel+2) [VSymbol name, VInteger 1] 1 (new_child initialStore 0) =
      some (.ok vnull, storeSet (new_child initialStore 0) 1 name (VInteger 1)) ∧
    env_get (storeSet (new_child initialStore 0) 1 name (VInteger 1)) 1 name =
      some (VInteger 1) ∧
    interpret 30 [NList [NList [NIdentifier "lambda", NList [],
      NList [NIdentifier "define", NIdentifier "if", NInteger 42], NIdentifier "if"]]] =
      some (.ok (VInteger 42)) := by
  have hhas : new_root.has name = true := by
    simp [PREDEFINED_FUNCTIONS] at h
    rcases h with h | h | h | h | h | h | h | h | h | h | h | h | h <;> subst h <;> decide
  have hroot : (storeEnv initialStore 0).has name = true := hhas
  have hchild : (storeEnv (new_child initialStore 0) 1).has name = false := rfl
  refine ⟨hhas, ?_, ?_, ?_, by rfl⟩
  · intro expr
    simp [native_define, hroot]
  · simp [native_define, hchild, evaluate_value]
  · simp [env_get, env_lookup, storeSet, new_child, Environment.set, mapInsert, mapFind,
      initialStore]

/-- Witness for c10_builtins_local_in_root at the name define. -/
theorem c10_builtins_local_in_root_witness :
    new_root.has "define" = true ∧
    native_define 1 [VSymbol "define", VInteger 9] 0 initialStore =
      some (.error ⟨"Duplicate define: define"⟩, initialStore) := by
  have h := c10_builtins_local_in_root 0 "define" (by simp [PREDEFINED_FUNCTIONS])
  exact ⟨h.1, h.2.1 (VInteger 9)⟩

end RScheme
